import Mathlib

/-!
Verification of the color-prediction betting backend.

Shallow embedding of the round/bet settlement core:
- config/constants.js        (payout tables, digit-to-color and digit-to-size maps)
- services/profitEngine.service.js  (liability calculator, weighted selection, admin validation)
- services/gameAdmin.service.js     (declareResult, cancelRound, processBetsWithResult)
- services/bet.service.js           (placeBet)

Monetary amounts and multipliers are modelled as rationals; the JS source uses
IEEE doubles, but none of the verified properties depends on rounding.
Database rows become records in an explicit state (DB); Prisma update calls
become pure state transformations; a JS throw becomes an Except error paired
with the unchanged state.
-/

/-- Bet families, enum BetType of the Prisma schema. -/
inductive BetType where
  | COLOR | NUMBER | SIZE
deriving DecidableEq, Repr

/-- Bet results, enum BetResult of the Prisma schema. -/
inductive BetResult where
  | PENDING | WON | LOST | CANCELLED
deriving DecidableEq, Repr

/-- Round lifecycle states, enum RoundStatus of the Prisma schema. -/
inductive RoundStatus where
  | OPEN | PAUSED | CLOSED | CANCELLED | RESULT_DECLARED
deriving DecidableEq, Repr

/-- Result declaration states, enum ResultStatus of the Prisma schema. -/
inductive ResultStatus where
  | PENDING | DECLARED
deriving DecidableEq, Repr

/-- Ledger transaction kinds, enum TransactionType of the Prisma schema
(the unused kinds are kept for faithfulness of the enum). -/
inductive TxnType where
  | DEPOSIT | WITHDRAWAL | BET_PLACED | BET_WON | REFERRAL_BONUS | REFUND
deriving DecidableEq, Repr

/-- Ledger transaction statuses, enum TransactionStatus of the Prisma schema. -/
inductive TxnStatus where
  | PENDING | COMPLETED | FAILED | CANCELLED
deriving DecidableEq, Repr

/-- PAYOUTS.COLOR of constants.js: GREEN 1.95, RED 1.95, VIOLET 4.5.
A JS lookup with any other key yields undefined, modelled as none. -/
def PAYOUTS_COLOR (c : String) : Option ℚ :=
  if c = "GREEN" then some (195/100)
  else if c = "RED" then some (195/100)
  else if c = "VIOLET" then some (45/10)
  else none

/-- PAYOUTS.NUMBER of constants.js. -/
def PAYOUTS_NUMBER : ℚ := 85/10

/-- PAYOUTS.SIZE of constants.js: BIG 1.95, SMALL 1.95; other keys undefined. -/
def PAYOUTS_SIZE (s : String) : Option ℚ :=
  if s = "BIG" then some (195/100)
  else if s = "SMALL" then some (195/100)
  else none

/-- NUMBER_COLORS of constants.js, the digit-to-color table
(keys 0 to 9; the source object has no other key). -/
def NUMBER_COLORS (n : ℕ) : String :=
  match n with
  | 0 => "VIOLET"
  | 1 => "GREEN"
  | 2 => "RED"
  | 3 => "GREEN"
  | 4 => "RED"
  | 5 => "VIOLET"
  | 6 => "RED"
  | 7 => "GREEN"
  | 8 => "RED"
  | 9 => "GREEN"
  | _ => ""

/-- NUMBER_SIZES of constants.js, the digit-to-size table. -/
def NUMBER_SIZES (n : ℕ) : String :=
  if n ≤ 4 then "SMALL" else if n ≤ 9 then "BIG" else ""

/-- Model of parseInt applied to a bet selection. Both the liability
calculator and the settlement pass parse the selection with the very same
expression, and selections are normalized digit strings at placement, so the
verified properties are insensitive to the parse model of exotic strings. -/
def jsParseInt (s : String) : Option ℕ := s.toNat?

/-- A bet row (model Bet of the Prisma schema, fields used by the core). -/
structure Bet where
  id : ℕ
  userId : ℕ
  gameRoundId : ℕ
  betType : BetType
  selection : String
  amount : ℚ
  potentialWin : ℚ
  result : BetResult
  winAmount : Option ℚ
deriving DecidableEq, Repr

/-- A ledger transaction row (model Transaction, fields used by the core). -/
structure Txn where
  userId : ℕ
  type : TxnType
  amount : ℚ
  status : TxnStatus
  referenceId : ℕ
  description : String
deriving DecidableEq, Repr

/-- One outcome candidate of the liability calculator: the record pushed for
each digit 0 to 9 in calculateAllResultsLiability. -/
structure Candidate where
  number : ℕ
  color : String
  size : String
  colorPayout : ℚ
  sizePayout : ℚ
  numberPayout : ℚ
  totalLiability : ℚ
  totalCollection : ℚ
  profit : ℚ
  profitPercent : ℚ
  isProfitable : Bool
  isAcceptable : Bool
deriving DecidableEq, Repr

/-- The value returned by calculateAllResultsLiability when bets exist. -/
structure Calculation where
  totalCollection : ℚ
  totalBets : ℕ
  results : List Candidate
deriving DecidableEq, Repr

/-- A game round row (model GameRound, fields used by the core). Timestamps
are ticks fed in by the caller; calculationData keeps the serialized
candidate list as an opaque payload. -/
structure Round where
  id : ℕ
  period : String
  status : RoundStatus
  resultStatus : ResultStatus
  number : Option ℕ
  winningColor : Option String
  winningSize : Option String
  resultDeclaredBy : Option String
  declaredAt : Option ℕ
  declaredByAdminId : Option ℕ
  endTime : Option ℕ
  totalCollection : Option ℚ
  totalPayout : Option ℚ
  profit : Option ℚ
  profitPercent : Option ℚ
  calculationData : Option (List Candidate)
  selectedResultRank : Option String
  isProfitable : Bool
  lossAmount : Option ℚ
deriving DecidableEq, Repr

/-- The persistent state touched by the core: rounds, bets, wallet balances
(one balance per user id) and the append-only transaction ledger. -/
structure DB where
  rounds : List Round
  bets : List Bet
  wallets : ℕ → ℚ
  transactions : List Txn

/-- prisma.wallet.update with balance increment. -/
def creditWallet (w : ℕ → ℚ) (uid : ℕ) (amt : ℚ) : ℕ → ℚ :=
  fun u => if u = uid then w u + amt else w u

/-- prisma.wallet.update with balance decrement. -/
def debitWallet (w : ℕ → ℚ) (uid : ℕ) (amt : ℚ) : ℕ → ℚ :=
  fun u => if u = uid then w u - amt else w u

/-- prisma.bet.update keyed by the bet id (id is the primary key). -/
def updateBetRecord (bets : List Bet) (bid : ℕ) (f : Bet → Bet) : List Bet :=
  bets.map (fun b => if b.id = bid then f b else b)

/-- prisma.gameRound.update keyed by the round id. -/
def updateRoundRecord (rounds : List Round) (rid : ℕ) (f : Round → Round) : List Round :=
  rounds.map (fun r => if r.id = rid then f r else r)

/-- prisma.bet.findMany where gameRoundId. -/
def betsOfRound (db : DB) (rid : ℕ) : List Bet :=
  db.bets.filter (fun b => b.gameRoundId = rid)

/-! ## Liability calculator (profitEngine.service.js, calculateAllResultsLiability) -/

/-- Contribution of one bet to colorPayout for candidate digit n with color
NUMBER_COLORS n: the COLOR branch of the per-bet loop. -/
def colorContribution (n : ℕ) (b : Bet) : ℚ :=
  if b.betType = BetType.COLOR then
    if b.selection = NUMBER_COLORS n then
      b.amount * (if NUMBER_COLORS n = "VIOLET" then (45/10)
                  else (PAYOUTS_COLOR (NUMBER_COLORS n)).getD 0)
    else if b.selection = "VIOLET" ∧ (n = 0 ∨ n = 5) then
      b.amount * (45/10)
    else 0
  else 0

/-- Contribution of one bet to sizePayout for candidate digit n. -/
def sizeContribution (n : ℕ) (b : Bet) : ℚ :=
  if b.betType = BetType.SIZE ∧ b.selection = NUMBER_SIZES n then
    b.amount * (PAYOUTS_SIZE (NUMBER_SIZES n)).getD 0
  else 0

/-- Contribution of one bet to numberPayout for candidate digit n. -/
def numberContribution (n : ℕ) (b : Bet) : ℚ :=
  if b.betType = BetType.NUMBER ∧ jsParseInt b.selection = some n then
    b.amount * PAYOUTS_NUMBER
  else 0

/-- The candidate record built for digit n in the main loop of
calculateAllResultsLiability. -/
def candidateFor (minProfitPercent maxLossPerRound : ℚ) (bets : List Bet)
    (totalCollection : ℚ) (n : ℕ) : Candidate :=
  let colorPayout := (bets.map (colorContribution n)).sum
  let sizePayout := (bets.map (sizeContribution n)).sum
  let numberPayout := (bets.map (numberContribution n)).sum
  let totalLiability := colorPayout + sizePayout + numberPayout
  let profit := totalCollection - totalLiability
  let profitPercent := if totalCollection > 0 then profit / totalCollection * 100 else 0
  { number := n
    color := NUMBER_COLORS n
    size := NUMBER_SIZES n
    colorPayout := colorPayout
    sizePayout := sizePayout
    numberPayout := numberPayout
    totalLiability := totalLiability
    totalCollection := totalCollection
    profit := profit
    profitPercent := profitPercent
    isProfitable := decide (profit ≥ 0 ∧ profitPercent ≥ minProfitPercent)
    isAcceptable := decide (profit ≥ -maxLossPerRound) }

/-- The final sort of calculateAllResultsLiability: results.sort with
comparator b.profit - a.profit. JS sort is stable, and a stable sort for a
total preorder has a unique result, here given by insertion sort on the
non-strict descending-profit relation. -/
def sortByProfitDescending (l : List Candidate) : List Candidate :=
  l.insertionSort (fun a b => b.profit ≤ a.profit)

/-- calculateAllResultsLiability: none models the null returned when the
round has no bets. The two engine limits are the constructor fields
MIN_PROFIT_PERCENT and MAX_LOSS_PER_ROUND. -/
def calculateAllResultsLiability (minProfitPercent maxLossPerRound : ℚ)
    (bets : List Bet) : Option Calculation :=
  if bets.isEmpty then none
  else
    let totalCollection := (bets.map (fun b => b.amount)).sum
    let results := (List.range 10).map
      (candidateFor minProfitPercent maxLossPerRound bets totalCollection)
    some { totalCollection := totalCollection
           totalBets := bets.length
           results := sortByProfitDescending results }

/-! ## Weighted selection (profitEngine.service.js, selectWeightedResult) -/

/-- selectWeightedResult. The two Math.random draws are passed in:
branchDraw picks the probability branch and randIndex is the already floored
index Math.floor(random times acceptable.length) of the random branch.
The first component none models a JS undefined selection (spreading
undefined yields an object with no candidate fields); the second component
is the selectedRank, none on the no-acceptable early return which hands back
a raw candidate without a rank. -/
def selectWeightedResult (results : List Candidate) (branchDraw : ℚ)
    (randIndex : ℕ) : Option Candidate × Option String :=
  let acceptableResults := results.filter (fun r => r.isAcceptable)
  if acceptableResults.isEmpty then
    (results.head?, none)
  else
    let profitableResults := acceptableResults.filter (fun r => r.isProfitable)
    let highProfit := profitableResults.head?
    let mediumProfit := (profitableResults.get? (profitableResults.length / 2)).orElse
      (fun _ => highProfit)
    let randomResult := acceptableResults.get? randIndex
    if branchDraw < 70/100 then (highProfit, some "HIGH_PROFIT")
    else if branchDraw < 70/100 + 20/100 then (mediumProfit, some "MEDIUM_PROFIT")
    else (randomResult, some "RANDOM")


/-! ## Admin result validation (profitEngine.service.js, validateAdminResult) -/

/-- The regex test for a single digit followed by parseInt, in
validateAdminResult and declareResult. -/
def parseSingleDigit (s : String) : Option ℕ :=
  if s = "0" then some 0 else if s = "1" then some 1 else if s = "2" then some 2
  else if s = "3" then some 3 else if s = "4" then some 4 else if s = "5" then some 5
  else if s = "6" then some 6 else if s = "7" then some 7 else if s = "8" then some 8
  else if s = "9" then some 9 else none

/-- Object.entries(NUMBER_COLORS).find with the given color, with the
source's fallback to 0 when nothing matches. -/
def firstNumberWithColor (c : String) : ℕ :=
  (((List.range 10).find? (fun n => NUMBER_COLORS n = c)).getD 0)

/-- Object.entries(NUMBER_SIZES).find with the given size, with fallback 0. -/
def firstNumberWithSize (s : String) : ℕ :=
  (((List.range 10).find? (fun n => NUMBER_SIZES n = s)).getD 0)

/-- The target-number resolution shared by validateAdminResult's three
parsing branches: a digit string, a color name, or a size name
(each name compared after toUpperCase). -/
def resolveWinningOption (winningOption : String) : Option ℕ :=
  match parseSingleDigit winningOption with
  | some n => some n
  | none =>
    if winningOption.toUpper = "GREEN" ∨ winningOption.toUpper = "RED"
        ∨ winningOption.toUpper = "VIOLET" then
      some (firstNumberWithColor winningOption.toUpper)
    else if winningOption.toUpper = "BIG" ∨ winningOption.toUpper = "SMALL" then
      some (firstNumberWithSize winningOption.toUpper)
    else none

/-- The object validateAdminResult returns. Numeric interpolation inside the
source's message strings is abstracted away; no verified property reads the
message text. -/
structure AdminValidation where
  valid : Bool
  warning : Option String
  error : Option String
  result : Option Candidate
deriving DecidableEq, Repr

/-- A placeholder candidate for the (provably unreachable) failure of the
find over the ten candidates in validateAdminResult; the source would
dereference undefined there. -/
def missingCandidate : Candidate :=
  { number := 10, color := "", size := "", colorPayout := 0, sizePayout := 0,
    numberPayout := 0, totalLiability := 0, totalCollection := 0, profit := 0,
    profitPercent := 0, isProfitable := false, isAcceptable := false }

/-- validateAdminResult, over the round's bet set. -/
def validateAdminResult (minProfitPercent maxLossPerRound : ℚ)
    (bets : List Bet) (winningOption : String) : AdminValidation :=
  match calculateAllResultsLiability minProfitPercent maxLossPerRound bets with
  | none =>
    { valid := true, warning := some "No bets placed", error := none, result := none }
  | some calculation =>
    match resolveWinningOption winningOption with
    | none =>
      { valid := false, warning := none, error := some "Invalid winning option",
        result := none }
    | some targetNumber =>
      let result := (calculation.results.find?
        (fun r => r.number = targetNumber)).getD missingCandidate
      if result.isAcceptable = false then
        { valid := false, warning := none,
          error := some "Result causes loss which exceeds max allowed loss",
          result := some result }
      else if result.isProfitable = false then
        { valid := true, warning := some "Result is not profitable",
          error := none, result := some result }
      else
        { valid := true, warning := none, error := none, result := some result }

/-! ## Settlement engine (gameAdmin.service.js, processBetsWithResult) -/

/-- The pure win decision and win amount of the per-bet settlement loop in
processBetsWithResult, including the literal dual-color reduced-payout
branch of the source. -/
def computeBetOutcome (winningNumber : ℕ) (winningColor winningSize : String)
    (b : Bet) : Bool × ℚ :=
  match b.betType with
  | BetType.NUMBER =>
    if jsParseInt b.selection = some winningNumber then
      (true, b.amount * PAYOUTS_NUMBER)
    else (false, 0)
  | BetType.COLOR =>
    if b.selection = "VIOLET" ∧ (winningNumber = 0 ∨ winningNumber = 5) then
      (true, b.amount * (45/10))
    else if b.selection = winningColor then
      (true,
        if (winningNumber = 0 ∧ b.selection = "GREEN")
            ∨ (winningNumber = 5 ∧ b.selection = "RED") then
          b.amount * (145/100)
        else
          b.amount * (PAYOUTS_COLOR winningColor).getD 0)
    else (false, 0)
  | BetType.SIZE =>
    if b.selection = winningSize then
      (true, b.amount * (PAYOUTS_SIZE winningSize).getD 0)
    else (false, 0)

/-- One per-bet settlement transaction of processBetsWithResult: write the
bet's result and winAmount; on a win additionally credit the wallet and
append the BET_WON ledger record. -/
def settleBetUnit (winningNumber : ℕ) (winningColor winningSize : String)
    (b : Bet) (db : DB) : DB :=
  let outcome := computeBetOutcome winningNumber winningColor winningSize b
  let db1 : DB :=
    { db with
      bets := updateBetRecord db.bets b.id (fun x =>
        { x with
          result := if outcome.1 then BetResult.WON else BetResult.LOST
          winAmount := some (if outcome.1 then outcome.2 else 0) }) }
  if outcome.1 then
    { db1 with
      wallets := creditWallet db1.wallets b.userId outcome.2
      transactions := db1.transactions ++
        [{ userId := b.userId, type := TxnType.BET_WON, amount := outcome.2,
           status := TxnStatus.COMPLETED, referenceId := b.id,
           description := "Won bet" }] }
  else db1

/-- processBetsWithResult: fetch the round's bets once and settle each in
order. The loop carries no guard on the bet's current result state. -/
def processBetsWithResult (db : DB) (roundId winningNumber : ℕ)
    (winningColor winningSize : String) : DB :=
  (betsOfRound db roundId).foldl
    (fun s b => settleBetUnit winningNumber winningColor winningSize b s) db

/-! ## Result declaration (gameAdmin.service.js, declareResult) -/

/-- The winning number, color and size parsed from the admin's option in
declareResult (digit, color with its first representative digit, or size
with its first representative digit). -/
def parseDeclareOption (winningOption : String) : Option (ℕ × String × String) :=
  match parseSingleDigit winningOption with
  | some n => some (n, NUMBER_COLORS n, NUMBER_SIZES n)
  | none =>
    if winningOption.toUpper = "GREEN" ∨ winningOption.toUpper = "RED"
        ∨ winningOption.toUpper = "VIOLET" then
      let winningColor := winningOption.toUpper
      let winningNumber := firstNumberWithColor winningColor
      some (winningNumber, winningColor, NUMBER_SIZES winningNumber)
    else if winningOption.toUpper = "BIG" ∨ winningOption.toUpper = "SMALL" then
      let winningSize := winningOption.toUpper
      let winningNumber := firstNumberWithSize winningSize
      some (winningNumber, NUMBER_COLORS winningNumber, winningSize)
    else none

/-- cleanupOldRounds: keep only the latest 500 declared rounds, deleting the
oldest (by declaredAt) together with their bets. -/
def cleanupOldRounds (db : DB) : DB :=
  let declared := db.rounds.filter (fun r => r.resultStatus = ResultStatus.DECLARED)
  if declared.length > 500 then
    let roundsToDelete := declared.length - 500
    let oldRounds := (declared.insertionSort
      (fun a b => a.declaredAt.getD 0 ≤ b.declaredAt.getD 0)).take roundsToDelete
    let roundIds := oldRounds.map (fun r => r.id)
    { db with
      bets := db.bets.filter (fun b => ¬ b.gameRoundId ∈ roundIds)
      rounds := db.rounds.filter (fun r => ¬ r.id ∈ roundIds) }
  else db

/-- declareResult: admin-forced declaration. Returns the post-state paired
with the outcome; every error path of the source throws before any write,
so those paths return the input state unchanged. -/
def declareResult (minProfitPercent maxLossPerRound : ℚ) (db : DB)
    (gameRoundId : ℕ) (winningOption : String) (adminId now : ℕ) :
    DB × Except String Unit :=
  match db.rounds.find? (fun r => r.id = gameRoundId) with
  | none => (db, Except.error "Game round not found")
  | some round =>
    if round.resultStatus = ResultStatus.DECLARED then
      (db, Except.error "Result already declared for this round")
    else if round.status = RoundStatus.CANCELLED then
      (db, Except.error "Cannot declare result for cancelled round")
    else
      let roundBets := betsOfRound db gameRoundId
      let validation := validateAdminResult minProfitPercent maxLossPerRound
        roundBets winningOption
      if validation.valid = false then
        (db, Except.error (validation.error.getD ""))
      else
        match parseDeclareOption winningOption with
        | none => (db, Except.error "Invalid winning option. Must be 0-9, GREEN, RED, VIOLET, BIG, or SMALL")
        | some (winningNumber, winningColor, winningSize) =>
          let calculation := calculateAllResultsLiability minProfitPercent
            maxLossPerRound roundBets
          let selectedResult := calculation.bind
            (fun c => c.results.find? (fun r => r.number = winningNumber))
          let db1 : DB :=
            { db with
              rounds := updateRoundRecord db.rounds gameRoundId (fun r =>
                { r with
                  number := some winningNumber
                  winningColor := some winningColor
                  winningSize := some winningSize
                  status := RoundStatus.RESULT_DECLARED
                  resultStatus := ResultStatus.DECLARED
                  resultDeclaredBy := some "ADMIN"
                  declaredAt := some now
                  declaredByAdminId := some adminId
                  endTime := some now
                  totalCollection := some ((selectedResult.map
                    (fun s => s.totalCollection)).getD 0)
                  totalPayout := some ((selectedResult.map
                    (fun s => s.totalLiability)).getD 0)
                  profit := some ((selectedResult.map (fun s => s.profit)).getD 0)
                  profitPercent := some ((selectedResult.map
                    (fun s => s.profitPercent)).getD 0)
                  calculationData := calculation.map (fun c => c.results)
                  selectedResultRank := some "ADMIN_DECLARED"
                  isProfitable := (selectedResult.map
                    (fun s => s.isProfitable)).getD false
                  lossAmount :=
                    match selectedResult with
                    | some s => if s.profit < 0 then some (-s.profit) else none
                    | none => none }) }
          let db2 := processBetsWithResult db1 gameRoundId winningNumber
            winningColor winningSize
          (cleanupOldRounds db2, Except.ok ())

/-! ## Round cancellation (gameAdmin.service.js, cancelRound) -/

/-- The REFUND ledger record created for one refunded bet. -/
def refundTxn (period : String) (b : Bet) : Txn :=
  { userId := b.userId, type := TxnType.REFUND, amount := b.amount,
    status := TxnStatus.COMPLETED, referenceId := b.id,
    description := "Refund for cancelled round " ++ period }

/-- The per-bet body of cancelRound's refund loop, acting on the snapshot
bet b read before the transaction: only bets still PENDING are refunded. -/
def refundBetUnit (period : String) (b : Bet) (db : DB) : DB :=
  if b.result = BetResult.PENDING then
    { db with
      wallets := creditWallet db.wallets b.userId b.amount
      bets := updateBetRecord db.bets b.id (fun x =>
        { x with result := BetResult.CANCELLED, winAmount := some 0 })
      transactions := db.transactions ++ [refundTxn period b] }
  else db

/-- cancelRound: reject if already cancelled or declared, otherwise mark the
round CANCELLED and refund every still-PENDING bet of the round. -/
def cancelRound (db : DB) (gameRoundId adminId now : ℕ) :
    DB × Except String Unit :=
  match db.rounds.find? (fun r => r.id = gameRoundId) with
  | none => (db, Except.error "Game round not found")
  | some round =>
    if round.status = RoundStatus.CANCELLED then
      (db, Except.error "Round already cancelled")
    else if round.resultStatus = ResultStatus.DECLARED then
      (db, Except.error "Cannot cancel round after result is declared")
    else
      let roundBets := betsOfRound db gameRoundId
      let db1 : DB :=
        { db with
          rounds := updateRoundRecord db.rounds gameRoundId (fun r =>
            { r with status := RoundStatus.CANCELLED, endTime := some now }) }
      (roundBets.foldl (fun s b => refundBetUnit round.period b s) db1,
        Except.ok ())

/-! ## Bet placement (bet.service.js, placeBet) -/

/-- The request body of a bet placement. -/
structure BetRequest where
  gameRoundId : ℕ
  betType : BetType
  selection : String
  amount : ℚ
deriving DecidableEq, Repr

/-- placeBet: status checks, balance check, per-user-per-round uniqueness
check, then the atomic debit, bet insert and BET_PLACED ledger record.
Every rejection throws before the transaction, leaving the state unchanged;
newBetId stands for the id the database generates for the inserted row. -/
def placeBet (db : DB) (userId newBetId : ℕ) (req : BetRequest) :
    DB × Except String Bet :=
  match db.rounds.find? (fun r => r.id = req.gameRoundId) with
  | none => (db, Except.error "Game round not found")
  | some gameRound =>
    if gameRound.status = RoundStatus.PAUSED then
      (db, Except.error "Betting is temporarily paused for this round")
    else if gameRound.status = RoundStatus.CLOSED then
      (db, Except.error "Betting is closed for this round")
    else if gameRound.status = RoundStatus.CANCELLED then
      (db, Except.error "This round has been cancelled")
    else if gameRound.status = RoundStatus.RESULT_DECLARED then
      (db, Except.error "Result already declared for this round")
    else if gameRound.resultStatus = ResultStatus.DECLARED then
      (db, Except.error "Result already declared for this round")
    else if db.wallets userId < req.amount then
      (db, Except.error "Insufficient balance")
    else
      match db.bets.find? (fun b => b.userId = userId ∧ b.gameRoundId = req.gameRoundId) with
      | some _ => (db, Except.error "You have already placed a bet on this round")
      | none =>
        let normalizedSelection := req.selection.toUpper
        let potentialWin :=
          match req.betType with
          | BetType.COLOR => req.amount * (PAYOUTS_COLOR normalizedSelection).getD (195/100)
          | BetType.NUMBER => req.amount * PAYOUTS_NUMBER
          | BetType.SIZE => req.amount * (PAYOUTS_SIZE normalizedSelection).getD (195/100)
        let newBet : Bet :=
          { id := newBetId, userId := userId, gameRoundId := req.gameRoundId,
            betType := req.betType, selection := normalizedSelection,
            amount := req.amount, potentialWin := potentialWin,
            result := BetResult.PENDING, winAmount := none }
        ({ db with
            wallets := debitWallet db.wallets userId req.amount
            bets := db.bets ++ [newBet]
            transactions := db.transactions ++
              [{ userId := userId, type := TxnType.BET_PLACED, amount := req.amount,
                 status := TxnStatus.COMPLETED, referenceId := newBetId,
                 description := "Bet placed" }] },
          Except.ok newBet)

/-! ## Concrete states used by the claim theorems -/

/-- A COLOR GREEN bet of 100 that has already been settled as WON with
winAmount 195 (its round declared digit 1). -/
def wonBetC1 : Bet :=
  { id := 1, userId := 7, gameRoundId := 1, betType := BetType.COLOR,
    selection := "GREEN", amount := 100, potentialWin := 195,
    result := BetResult.WON, winAmount := some 195 }

/-- The BET_WON ledger record written by the first settlement of wonBetC1. -/
def wonTxnC1 : Txn :=
  { userId := 7, type := TxnType.BET_WON, amount := 195,
    status := TxnStatus.COMPLETED, referenceId := 1, description := "Won bet" }

/-- Round 1 after its result (digit 1, GREEN, SMALL) has been declared. -/
def roundC1 : Round :=
  { id := 1, period := "20250101-0004", status := RoundStatus.RESULT_DECLARED,
    resultStatus := ResultStatus.DECLARED, number := some 1,
    winningColor := some "GREEN", winningSize := some "SMALL",
    resultDeclaredBy := some "ADMIN", declaredAt := some 50,
    declaredByAdminId := some 9, endTime := some 50,
    totalCollection := some 100, totalPayout := some 195, profit := some (-95),
    profitPercent := some (-95), calculationData := none,
    selectedResultRank := some "ADMIN_DECLARED", isProfitable := false,
    lossAmount := some 95 }

/-- State after round 1 (declared digit 1) has been fully settled: its only
bet is WON and the winner's wallet already holds the 195 payout. -/
def dbC1 : DB :=
  { rounds := [roundC1], bets := [wonBetC1],
    wallets := fun u => if u = 7 then 195 else 0,
    transactions := [wonTxnC1] }

/-- C1: re-invoking the settlement pass on a round whose only bet is already
WON is claimed to be a no-op. The code has no terminal-result guard: the
re-run credits the winner's wallet a second time (195 to 390) and appends a
second BET_WON transaction, so the claim fails on the code while the spec
(an explicit idempotence guard for retries) states the clear intent. -/
theorem c1_resettlement_double_credits :
    wonBetC1.result = BetResult.WON ∧
    dbC1.wallets 7 = 195 ∧
    (dbC1.transactions.filter (fun t => t.type = TxnType.BET_WON)).length = 1 ∧
    (processBetsWithResult dbC1 1 1 "GREEN" "SMALL").wallets 7 = 390 ∧
    ((processBetsWithResult dbC1 1 1 "GREEN" "SMALL").transactions.filter
      (fun t => t.type = TxnType.BET_WON)).length = 2 := by
  with_unfolding_all decide

/-- A pending COLOR GREEN bet of 100 on round 1. -/
def greenBetC2 : Bet :=
  { id := 1, userId := 7, gameRoundId := 1, betType := BetType.COLOR,
    selection := "GREEN", amount := 100, potentialWin := 195,
    result := BetResult.PENDING, winAmount := none }

/-- State with exactly one pending GREEN bet of 100. -/
def dbC2 : DB :=
  { rounds := [], bets := [greenBetC2], wallets := fun _ => 0,
    transactions := [] }

/-- C2: declaring digit 0 (derived color VIOLET, derived size SMALL) on a
round holding one COLOR GREEN bet of 100 is claimed to pay 145 at the
reduced dual-color multiplier. On the code the bet is marked LOST with
winAmount 0 and no wallet credit: the reduced-payout branch of
processBetsWithResult is guarded by selection = winningColor, and the
winning color derived for digit 0 is VIOLET, so a GREEN selection never
reaches it — the code contradicts its own dual-color comment. -/
theorem c2_green_bet_loses_on_zero :
    computeBetOutcome 0 "VIOLET" "SMALL" greenBetC2 = (false, 0) ∧
    ((processBetsWithResult dbC2 1 0 "VIOLET" "SMALL").bets.map
      (fun b => (b.result, b.winAmount))) = [(BetResult.LOST, some 0)] ∧
    (processBetsWithResult dbC2 1 0 "VIOLET" "SMALL").wallets 7 = 0 ∧
    (processBetsWithResult dbC2 1 0 "VIOLET" "SMALL").transactions = [] := by
  with_unfolding_all decide

/-- A bet set of one BIG and one SMALL bet of 100 each: every digit then has
liability 195, collection 200, profit 5 and profit-percent 2.5, so every
candidate is acceptable (profit at least 0) and none is profitable
(2.5 below the 5 percent floor). -/
def betsC3 : List Bet :=
  [{ id := 1, userId := 3, gameRoundId := 1, betType := BetType.SIZE,
     selection := "BIG", amount := 100, potentialWin := 195,
     result := BetResult.PENDING, winAmount := none },
   { id := 2, userId := 4, gameRoundId := 1, betType := BetType.SIZE,
     selection := "SMALL", amount := 100, potentialWin := 195,
     result := BetResult.PENDING, winAmount := none }]

/-- The default handed to Option.getD when a theorem statement extracts a
Calculation it has separately proved to exist. -/
def emptyCalculation : Calculation :=
  { totalCollection := 0, totalBets := 0, results := [] }

/-- C3: the weighted system-mode selection is claimed to return a
well-defined acceptable candidate in every probability branch whenever an
acceptable candidate exists. On betsC3 all ten candidates are acceptable and
none is profitable, and the 70 percent branch (draw 0.5) and the 20 percent
branch (draw 0.8) both select profitableResults[0], which is undefined:
the pick carries no candidate (none), only the random 10 percent branch
returns one. The spec's wording (highest-profit acceptable candidate) is the
clear intent; indexing the profitable stratum instead is the slip. -/
theorem c3_selection_undefined_without_profitable :
    (calculateAllResultsLiability 5 0 betsC3).isSome = true ∧
    (((calculateAllResultsLiability 5 0 betsC3).getD emptyCalculation).results.filter
      (fun r => r.isAcceptable)).length = 10 ∧
    (((calculateAllResultsLiability 5 0 betsC3).getD emptyCalculation).results.filter
      (fun r => r.isProfitable)).length = 0 ∧
    selectWeightedResult
      ((calculateAllResultsLiability 5 0 betsC3).getD emptyCalculation).results (1/2) 0
      = (none, some "HIGH_PROFIT") ∧
    selectWeightedResult
      ((calculateAllResultsLiability 5 0 betsC3).getD emptyCalculation).results (8/10) 0
      = (none, some "MEDIUM_PROFIT") ∧
    (selectWeightedResult
      ((calculateAllResultsLiability 5 0 betsC3).getD emptyCalculation).results
      (95/100) 3).1.isSome = true := by
  with_unfolding_all decide

/-- C9: with zero bets on the round, validateAdminResult returns valid with
only the No-bets warning for every supplied winning-option string — option
parsing and the acceptability check are skipped, so even a malformed option
is not rejected at the validation step. -/
theorem c9_empty_round_validation_skipped (minProfitPercent maxLossPerRound : ℚ)
    (winningOption : String) :
    validateAdminResult minProfitPercent maxLossPerRound [] winningOption
      = { valid := true, warning := some "No bets placed", error := none,
          result := none } := by
  rfl

/-- C10: frame effects of one per-bet settlement unit. On a loss the bet is
written LOST with winAmount 0 and both the wallets and the ledger are left
untouched; on a win the bet is written WON with the computed winAmount, the
owner's balance grows by exactly that amount, every other balance is
untouched, and exactly one BET_WON transaction with that amount and the
bet's id as referenceId is appended. -/
theorem c10_settle_unit_frame (winningNumber : ℕ) (winningColor winningSize : String)
    (b : Bet) (db : DB) :
    ((computeBetOutcome winningNumber winningColor winningSize b).1 = false →
      (settleBetUnit winningNumber winningColor winningSize b db).wallets = db.wallets ∧
      (settleBetUnit winningNumber winningColor winningSize b db).transactions
        = db.transactions ∧
      (settleBetUnit winningNumber winningColor winningSize b db).bets
        = updateBetRecord db.bets b.id (fun x =>
            { x with result := BetResult.LOST, winAmount := some 0 })) ∧
    ((computeBetOutcome winningNumber winningColor winningSize b).1 = true →
      (settleBetUnit winningNumber winningColor winningSize b db).wallets b.userId
        = db.wallets b.userId
          + (computeBetOutcome winningNumber winningColor winningSize b).2 ∧
      (∀ u, u ≠ b.userId →
        (settleBetUnit winningNumber winningColor winningSize b db).wallets u
          = db.wallets u) ∧
      (settleBetUnit winningNumber winningColor winningSize b db).transactions
        = db.transactions ++
          [{ userId := b.userId, type := TxnType.BET_WON,
             amount := (computeBetOutcome winningNumber winningColor winningSize b).2,
             status := TxnStatus.COMPLETED, referenceId := b.id,
             description := "Won bet" }] ∧
      (settleBetUnit winningNumber winningColor winningSize b db).bets
        = updateBetRecord db.bets b.id (fun x =>
            { x with result := BetResult.WON,
                     winAmount := some (computeBetOutcome winningNumber winningColor
                       winningSize b).2 })) := by
  constructor
  · intro h
    refine ⟨?_, ?_, ?_⟩ <;> simp [settleBetUnit, h]
  · intro h
    refine ⟨?_, ?_, ?_, ?_⟩
    · simp [settleBetUnit, h, creditWallet]
    · intro u hu
      simp [settleBetUnit, h, creditWallet, hu]
    · simp [settleBetUnit, h]
    · simp [settleBetUnit, h]

/-- A pending COLOR GREEN bet used by the C10 witness. -/
def betC10 : Bet :=
  { id := 9, userId := 3, gameRoundId := 2, betType := BetType.COLOR,
    selection := "GREEN", amount := 40, potentialWin := 78,
    result := BetResult.PENDING, winAmount := none }

/-- State used by the C10 witness. -/
def dbC10 : DB :=
  { rounds := [], bets := [betC10], wallets := fun _ => 10, transactions := [] }

/-- Witness for C10 at a concrete winning bet: the owner's balance grows by
exactly the computed win amount. -/
theorem c10_settle_unit_frame_witness :
    (settleBetUnit 1 "GREEN" "SMALL" betC10 dbC10).wallets 3
      = dbC10.wallets 3 + (computeBetOutcome 1 "GREEN" "SMALL" betC10).2 :=
  ((c10_settle_unit_frame 1 "GREEN" "SMALL" betC10 dbC10).2
    (by with_unfolding_all decide)).1

/-- C4: a bet placement that targets a round whose status is anything other
than OPEN is rejected and leaves the state untouched: no wallet debit, no
bet row, no transaction record (the source throws before its transaction). -/
theorem c4_placebet_rejected_when_not_open (db : DB) (userId newBetId : ℕ)
    (req : BetRequest) (round : Round)
    (hfind : db.rounds.find? (fun r => r.id = req.gameRoundId) = some round)
    (hst : round.status ≠ RoundStatus.OPEN) :
    (placeBet db userId newBetId req).1 = db ∧
    ∃ msg, (placeBet db userId newBetId req).2 = Except.error msg := by
  unfold placeBet
  rw [hfind]
  cases h : round.status <;> simp [h] at hst ⊢

/-- The PAUSED round used by the C4 witness. -/
def roundC4 : Round :=
  { id := 1, period := "20250101-0001", status := RoundStatus.PAUSED,
    resultStatus := ResultStatus.PENDING, number := none, winningColor := none,
    winningSize := none, resultDeclaredBy := none, declaredAt := none,
    declaredByAdminId := none, endTime := none, totalCollection := none,
    totalPayout := none, profit := none, profitPercent := none,
    calculationData := none, selectedResultRank := none, isProfitable := false,
    lossAmount := none }

/-- State used by the C4 witness. -/
def dbC4 : DB :=
  { rounds := [roundC4], bets := [], wallets := fun _ => 100, transactions := [] }

/-- The placement request used by the C4 witness. -/
def reqC4 : BetRequest :=
  { gameRoundId := 1, betType := BetType.COLOR, selection := "green", amount := 50 }

/-- Witness for C4: placing on the concrete PAUSED round changes nothing. -/
theorem c4_placebet_rejected_when_not_open_witness :
    (placeBet dbC4 7 1 reqC4).1 = dbC4 :=
  (c4_placebet_rejected_when_not_open dbC4 7 1 reqC4 roundC4
    (by with_unfolding_all decide) (by decide)).1

/-! ## Ranking order of the liability calculator (C8) -/

/-- The ranking order the sorted candidate list is claimed to satisfy:
strictly higher profit first, equal profits in ascending digit order. -/
def rankedBefore (a b : Candidate) : Prop :=
  b.profit < a.profit ∨ (a.profit = b.profit ∧ a.number < b.number)

theorem candidateFor_number (minProfitPercent maxLossPerRound : ℚ)
    (bets : List Bet) (totalCollection : ℚ) (n : ℕ) :
    (candidateFor minProfitPercent maxLossPerRound bets totalCollection n).number = n :=
  rfl

/-- Inserting a candidate whose digit is smaller than every digit in an
already ranked list keeps the list ranked: the insertion point walks past
exactly the candidates of strictly higher profit, so on equal profit the
incoming (smaller-digit) candidate lands in front. -/
theorem orderedInsert_rankedBefore (a : Candidate) (l : List Candidate)
    (hl : l.Pairwise rankedBefore) (ha : ∀ b ∈ l, a.number < b.number) :
    (l.orderedInsert (fun a b => b.profit ≤ a.profit) a).Pairwise rankedBefore := by
  induction l with
  | nil => simp [List.orderedInsert]
  | cons b t ih =>
    rw [List.orderedInsert]
    by_cases hr : b.profit ≤ a.profit
    · rw [if_pos hr]
      refine List.pairwise_cons.2 ⟨?_, hl⟩
      intro x hx
      have hxprofit : x.profit ≤ a.profit := by
        rcases List.mem_cons.1 hx with hxb | hxt
        · exact hxb ▸ hr
        · rcases (List.pairwise_cons.1 hl).1 x hxt with hlt | ⟨heq, _⟩
          · exact le_trans hlt.le hr
          · exact heq ▸ hr
      rcases lt_or_eq_of_le hxprofit with hlt | heq
      · exact Or.inl hlt
      · exact Or.inr ⟨heq.symm, ha x hx⟩
    · rw [if_neg hr]
      have hab : a.profit < b.profit := lt_of_not_le hr
      refine List.pairwise_cons.2 ⟨?_, ?_⟩
      · intro x hx
        rcases (List.mem_orderedInsert _).1 hx with hxa | hxt
        · exact hxa ▸ Or.inl hab
        · exact (List.pairwise_cons.1 hl).1 x hxt
      · exact ih (List.pairwise_cons.1 hl).2
          (fun x hx => ha x (List.mem_cons_of_mem b hx))

/-- The stable descending-profit sort of a list whose digits are strictly
increasing produces a fully ranked list. -/
theorem sortByProfitDescending_pairwise (l : List Candidate)
    (h : l.Pairwise (fun a b => a.number < b.number)) :
    (sortByProfitDescending l).Pairwise rankedBefore := by
  induction l with
  | nil => simp [sortByProfitDescending, List.insertionSort]
  | cons a t ih =>
    have ht := (List.pairwise_cons.1 h).2
    rw [sortByProfitDescending, List.insertionSort]
    refine orderedInsert_rankedBefore a _ (ih ht) ?_
    intro b hb
    exact (List.pairwise_cons.1 h).1 b ((List.mem_insertionSort _).1 hb)

/-- The unsorted candidate list (one candidate per digit 0 to 9) has
strictly increasing digits. -/
theorem baseCandidates_pairwise (minProfitPercent maxLossPerRound : ℚ)
    (bets : List Bet) (totalCollection : ℚ) :
    ((List.range 10).map
      (candidateFor minProfitPercent maxLossPerRound bets totalCollection)).Pairwise
      (fun a b => a.number < b.number) := by
  rw [List.pairwise_map]
  exact (List.pairwise_lt_range 10).imp (fun hab => by
    simpa [candidateFor_number] using hab)

/-- C8: on every non-empty bet set the liability calculator succeeds, is
deterministic (it is a pure function, so the double-invocation equality is
definitional), and returns exactly 10 candidates, one per digit 0 to 9,
ranked by strictly descending profit with equal-profit ties in ascending
digit order (the stability of the sort over the digit-ordered input). -/
theorem c8_liability_ranking (minProfitPercent maxLossPerRound : ℚ)
    (bets : List Bet) (hne : bets ≠ []) :
    (calculateAllResultsLiability minProfitPercent maxLossPerRound bets).isSome = true ∧
    calculateAllResultsLiability minProfitPercent maxLossPerRound bets
      = calculateAllResultsLiability minProfitPercent maxLossPerRound bets ∧
    ∀ cal, calculateAllResultsLiability minProfitPercent maxLossPerRound bets = some cal →
      cal.results.length = 10 ∧
      (cal.results.map (fun c => c.number)).Perm (List.range 10) ∧
      cal.results.Pairwise rankedBefore := by
  have hempty : bets.isEmpty = false := by
    cases bets with
    | nil => exact absurd rfl hne
    | cons a t => rfl
  refine ⟨?_, rfl, ?_⟩
  · rw [calculateAllResultsLiability, hempty]
    rfl
  · intro cal hcal
    rw [calculateAllResultsLiability, hempty] at hcal
    simp only [Bool.false_eq_true, if_false, Option.some.injEq] at hcal
    have hres : cal.results = sortByProfitDescending
        ((List.range 10).map (candidateFor minProfitPercent maxLossPerRound bets
          ((bets.map (fun b => b.amount)).sum))) := by
      rw [← hcal]
    have hperm : cal.results.Perm
        ((List.range 10).map (candidateFor minProfitPercent maxLossPerRound bets
          ((bets.map (fun b => b.amount)).sum))) := by
      rw [hres]
      exact List.perm_insertionSort _ _
    refine ⟨?_, ?_, ?_⟩
    · rw [hperm.length_eq]
      simp
    · refine (hperm.map (fun c => c.number)).trans ?_
      rw [List.map_map]
      have : ((fun c : Candidate => c.number) ∘
          (candidateFor minProfitPercent maxLossPerRound bets
            ((bets.map (fun b => b.amount)).sum))) = id := by
        funext n
        simp [candidateFor_number]
      rw [this, List.map_id]
    · rw [hres]
      exact sortByProfitDescending_pairwise _
        (baseCandidates_pairwise _ _ _ _)

/-- The single-bet set used by the C8 witness. -/
def betsC8 : List Bet :=
  [{ id := 1, userId := 2, gameRoundId := 5, betType := BetType.COLOR,
     selection := "GREEN", amount := 100, potentialWin := 195,
     result := BetResult.PENDING, winAmount := none }]

/-- Witness for C8 at a concrete bet set: the returned ranking has 10
candidates. -/
theorem c8_liability_ranking_witness :
    ((calculateAllResultsLiability 5 0 betsC8).getD emptyCalculation).results.length
      = 10 :=
  ((c8_liability_ranking 5 0 betsC8 (by decide)).2.2
    ((calculateAllResultsLiability 5 0 betsC8).getD emptyCalculation)
    (by with_unfolding_all decide)).1

/-! ## Settlement pays exactly the computed liability (C5) -/

theorem candidateFor_totalLiability (minProfitPercent maxLossPerRound : ℚ)
    (bets : List Bet) (totalCollection : ℚ) (n : ℕ) :
    (candidateFor minProfitPercent maxLossPerRound bets totalCollection n).totalLiability
      = (bets.map (colorContribution n)).sum + (bets.map (sizeContribution n)).sum
        + (bets.map (numberContribution n)).sum :=
  rfl

/-- Per-bet agreement between the settlement pass and the liability
calculator at a derived outcome: for every digit d below 10, the win amount
processBetsWithResult computes with the derived color and size equals the
bet's summed contribution to that digit's liability. The settlement-only
reduced-payout branch cannot fire because the derived color of digits 0 and
5 is VIOLET. -/
theorem computeBetOutcome_eq_contribution (d : ℕ) (hd : d < 10) (b : Bet) :
    (computeBetOutcome d (NUMBER_COLORS d) (NUMBER_SIZES d) b).2
      = colorContribution d b + sizeContribution d b + numberContribution d b := by
  rcases b with ⟨bid, uid, rid, bt, sel, amt, pw, res, wa⟩
  cases bt with
  | NUMBER =>
    by_cases h : jsParseInt sel = some d <;>
      simp [computeBetOutcome, colorContribution, sizeContribution,
        numberContribution, h]
  | SIZE =>
    by_cases h : sel = NUMBER_SIZES d <;>
      simp [computeBetOutcome, colorContribution, sizeContribution,
        numberContribution, h]
  | COLOR =>
    interval_cases d <;>
      (by_cases h1 : sel = "VIOLET" <;> by_cases h2 : sel = "GREEN" <;>
        by_cases h3 : sel = "RED" <;>
        simp_all [computeBetOutcome, colorContribution, sizeContribution,
          numberContribution, NUMBER_COLORS, NUMBER_SIZES, PAYOUTS_COLOR])

/-- C5: for every declared digit, the sum over the round's bets of the win
amount assigned by settlement (at the digit's derived color and size)
equals the totalLiability the liability calculator computed for that
digit's candidate over the same bet set. -/
theorem c5_settlement_sum_matches_liability (minProfitPercent maxLossPerRound : ℚ)
    (bets : List Bet) (d : ℕ) (cal : Calculation) (c : Candidate)
    (hcal : calculateAllResultsLiability minProfitPercent maxLossPerRound bets = some cal)
    (hc : c ∈ cal.results) (hn : c.number = d) :
    (bets.map (fun b =>
      (computeBetOutcome d (NUMBER_COLORS d) (NUMBER_SIZES d) b).2)).sum
      = c.totalLiability := by
  have hempty : bets.isEmpty = false := by
    cases bets with
    | nil =>
      rw [calculateAllResultsLiability] at hcal
      simp at hcal
    | cons a t => rfl
  rw [calculateAllResultsLiability, hempty] at hcal
  simp only [Bool.false_eq_true, if_false, Option.some.injEq] at hcal
  have hres : c ∈ sortByProfitDescending
      ((List.range 10).map (candidateFor minProfitPercent maxLossPerRound bets
        ((bets.map (fun b => b.amount)).sum))) := by
    rw [← hcal] at hc
    exact hc
  have hmem : c ∈ (List.range 10).map (candidateFor minProfitPercent maxLossPerRound
      bets ((bets.map (fun b => b.amount)).sum)) :=
    (List.mem_insertionSort _).1 hres
  obtain ⟨n, hn10, hcand⟩ := List.mem_map.1 hmem
  have hnd : n = d := by
    rw [← hn, ← hcand, candidateFor_number]
  have hd : d < 10 := by
    rw [← hnd]
    exact List.mem_range.1 hn10
  rw [← hcand, hnd, candidateFor_totalLiability]
  rw [List.map_congr_left (fun b _ => computeBetOutcome_eq_contribution d hd b)]
  rw [show (fun b => colorContribution d b + sizeContribution d b
      + numberContribution d b)
    = (fun b => (colorContribution d b + sizeContribution d b)
      + numberContribution d b) from rfl]
  rw [List.sum_map_add, List.sum_map_add]

/-- Witness for C5: on a round holding one GREEN bet of 100, the candidate
for digit 1 carries liability 195 and settlement of digit 1 pays 195. -/
theorem c5_settlement_sum_matches_liability_witness :
    (betsC8.map (fun b =>
      (computeBetOutcome 1 (NUMBER_COLORS 1) (NUMBER_SIZES 1) b).2)).sum
      = ((((calculateAllResultsLiability 5 0 betsC8).getD
          emptyCalculation).results.find? (fun r => r.number = 1)).getD
          missingCandidate).totalLiability :=
  c5_settlement_sum_matches_liability 5 0 betsC8 1
    ((calculateAllResultsLiability 5 0 betsC8).getD emptyCalculation)
    ((((calculateAllResultsLiability 5 0 betsC8).getD
        emptyCalculation).results.find? (fun r => r.number = 1)).getD
        missingCandidate)
    (by with_unfolding_all decide)
    (by with_unfolding_all decide)
    (by with_unfolding_all decide)

/-! ## Cancellation refunds (C7) -/

/-- The bet fields written by the cancellation refund: result CANCELLED,
winAmount 0. -/
def cancelBetFields (x : Bet) : Bet :=
  { x with result := BetResult.CANCELLED, winAmount := some 0 }

theorem cancelBetFields_id (x : Bet) : (cancelBetFields x).id = x.id := rfl

theorem cancelBetFields_idem (x : Bet) :
    cancelBetFields (cancelBetFields x) = cancelBetFields x := rfl

theorem refundFold_rounds (period : String) (l : List Bet) (s : DB) :
    (l.foldl (fun acc b => refundBetUnit period b acc) s).rounds = s.rounds := by
  induction l generalizing s with
  | nil => rfl
  | cons b t ih =>
    rw [List.foldl_cons, ih]
    by_cases hp : b.result = BetResult.PENDING <;> simp [refundBetUnit, hp]

theorem refundFold_wallets (period : String) (l : List Bet) (s : DB) (u : ℕ) :
    (l.foldl (fun acc b => refundBetUnit period b acc) s).wallets u
      = s.wallets u + ((l.filter (fun b =>
          b.result = BetResult.PENDING ∧ b.userId = u)).map (fun b => b.amount)).sum := by
  induction l generalizing s with
  | nil => simp
  | cons b t ih =>
    rw [List.foldl_cons, ih]
    by_cases hp : b.result = BetResult.PENDING
    · by_cases hu : b.userId = u
      · simp [refundBetUnit, creditWallet, hp, hu, List.filter_cons]
        ring
      · have hne : ¬ u = b.userId := fun h => hu h.symm
        simp [refundBetUnit, creditWallet, hp, hu, hne, List.filter_cons]
    · simp [refundBetUnit, hp, List.filter_cons]

theorem refundFold_transactions (period : String) (l : List Bet) (s : DB) :
    (l.foldl (fun acc b => refundBetUnit period b acc) s).transactions
      = s.transactions
        ++ (l.filter (fun b => b.result = BetResult.PENDING)).map (refundTxn period) := by
  induction l generalizing s with
  | nil => simp
  | cons b t ih =>
    rw [List.foldl_cons, ih]
    by_cases hp : b.result = BetResult.PENDING <;>
      simp [refundBetUnit, hp, List.filter_cons]

theorem refundFold_bets (period : String) (l : List Bet) (s : DB) :
    (l.foldl (fun acc b => refundBetUnit period b acc) s).bets
      = s.bets.map (fun x =>
          if ∃ b ∈ l, b.id = x.id ∧ b.result = BetResult.PENDING
          then cancelBetFields x else x) := by
  induction l generalizing s with
  | nil => simp
  | cons b t ih =>
    rw [List.foldl_cons, ih]
    by_cases hp : b.result = BetResult.PENDING
    · have hbets : (refundBetUnit period b s).bets
          = s.bets.map (fun x => if x.id = b.id then cancelBetFields x else x) := by
        simp [refundBetUnit, hp, updateBetRecord, cancelBetFields]
      rw [hbets, List.map_map]
      refine List.map_congr_left ?_
      intro x hx
      simp only [Function.comp]
      by_cases hid : x.id = b.id
      · rw [if_pos hid]
        by_cases hex : ∃ b' ∈ t, b'.id = x.id ∧ b'.result = BetResult.PENDING
        · have : ∃ b' ∈ t, b'.id = (cancelBetFields x).id
              ∧ b'.result = BetResult.PENDING := by
            simpa [cancelBetFields_id] using hex
          rw [if_pos this, cancelBetFields_idem]
          rw [if_pos ⟨b, List.mem_cons_self b t, hid.symm, hp⟩]
        · have : ¬ ∃ b' ∈ t, b'.id = (cancelBetFields x).id
              ∧ b'.result = BetResult.PENDING := by
            simpa [cancelBetFields_id] using hex
          rw [if_neg this]
          rw [if_pos ⟨b, List.mem_cons_self b t, hid.symm, hp⟩]
      · rw [if_neg hid]
        have hiff : (∃ b' ∈ b :: t, b'.id = x.id ∧ b'.result = BetResult.PENDING)
            ↔ (∃ b' ∈ t, b'.id = x.id ∧ b'.result = BetResult.PENDING) := by
          constructor
          · rintro ⟨b', hb', hbid, hbp⟩
            rcases List.mem_cons.1 hb' with rfl | hmem
            · exact absurd hbid.symm hid
            · exact ⟨b', hmem, hbid, hbp⟩
          · rintro ⟨b', hmem, hbid, hbp⟩
            exact ⟨b', List.mem_cons_of_mem b hmem, hbid, hbp⟩
        by_cases hex : ∃ b' ∈ t, b'.id = x.id ∧ b'.result = BetResult.PENDING
        · rw [if_pos hex, if_pos (hiff.2 hex)]
        · rw [if_neg hex, if_neg (fun h => hex (hiff.1 h))]
    · have hbets : (refundBetUnit period b s).bets = s.bets := by
        simp [refundBetUnit, hp]
      rw [hbets]
      refine List.map_congr_left ?_
      intro x hx
      have hiff : (∃ b' ∈ b :: t, b'.id = x.id ∧ b'.result = BetResult.PENDING)
          ↔ (∃ b' ∈ t, b'.id = x.id ∧ b'.result = BetResult.PENDING) := by
        constructor
        · rintro ⟨b', hb', hbid, hbp⟩
          rcases List.mem_cons.1 hb' with rfl | hmem
          · exact absurd hbp hp
          · exact ⟨b', hmem, hbid, hbp⟩
        · rintro ⟨b', hmem, hbid, hbp⟩
          exact ⟨b', List.mem_cons_of_mem b hmem, hbid, hbp⟩
      by_cases hex : ∃ b' ∈ t, b'.id = x.id ∧ b'.result = BetResult.PENDING
      · rw [if_pos hex, if_pos (hiff.2 hex)]
      · rw [if_neg hex, if_neg (fun h => hex (hiff.1 h))]

/-- A filter whose predicate singles out one element of a duplicate-free
list returns exactly that element. -/
theorem filter_eq_singleton_of_unique {α : Type} (p : α → Bool) (l : List α)
    (hnd : l.Nodup) (b : α) (hb : b ∈ l) (hpb : p b = true)
    (hun : ∀ x ∈ l, p x = true → x = b) : l.filter p = [b] := by
  induction l with
  | nil => cases hb
  | cons a t ih =>
    rcases List.mem_cons.1 hb with rfl | hbt
    · rw [List.filter_cons, if_pos hpb]
      have ht : t.filter p = [] := by
        rw [List.filter_eq_nil_iff]
        intro x hx hpx
        have hxb : x = b := hun x (List.mem_cons_of_mem b hx) hpx
        exact (List.nodup_cons.1 hnd).1 (hxb ▸ hx)
      rw [ht]
    · have hab : p a ≠ true := by
        intro hpa
        have : a = b := hun a (List.mem_cons_self a t) hpa
        exact (List.nodup_cons.1 hnd).1 (this ▸ hbt)
      rw [List.filter_cons, if_neg hab]
      exact ih (List.nodup_cons.1 hnd).2 hbt
        (fun x hx hpx => hun x (List.mem_cons_of_mem a hx) hpx)

/-- C7: cancelling a round that is not yet CANCELLED and whose resultStatus
is still PENDING succeeds, marks the round CANCELLED, refunds every
still-PENDING bet of the round by exactly its stake into its owner's
wallet, rewrites exactly those bets to CANCELLED with winAmount 0 (all
other bets are untouched), and appends one REFUND transaction per refunded
bet; cancellation is rejected with no state change once the round is
already CANCELLED or its result is DECLARED. The id-uniqueness and
one-bet-per-user-per-round hypotheses are the database's primary-key and
unique-constraint invariants. -/
theorem c7_cancel_round (db : DB) (rid adminId now : ℕ) (round : Round)
    (hfind : db.rounds.find? (fun r => r.id = rid) = some round)
    (hids : (db.bets.map (fun b => b.id)).Nodup)
    (huniq : ∀ b1 ∈ db.bets, ∀ b2 ∈ db.bets, b1.gameRoundId = rid →
      b2.gameRoundId = rid → b1.userId = b2.userId → b1 = b2) :
    ((round.status = RoundStatus.CANCELLED ∨
        round.resultStatus = ResultStatus.DECLARED) →
      (cancelRound db rid adminId now).1 = db ∧
      ∃ msg, (cancelRound db rid adminId now).2 = Except.error msg) ∧
    (round.status ≠ RoundStatus.CANCELLED →
      round.resultStatus ≠ ResultStatus.DECLARED →
      (cancelRound db rid adminId now).2 = Except.ok () ∧
      (cancelRound db rid adminId now).1.rounds
        = updateRoundRecord db.rounds rid (fun r =>
            { r with status := RoundStatus.CANCELLED, endTime := some now }) ∧
      (∀ b ∈ db.bets, b.gameRoundId = rid → b.result = BetResult.PENDING →
        (cancelRound db rid adminId now).1.wallets b.userId
          = db.wallets b.userId + b.amount) ∧
      (cancelRound db rid adminId now).1.bets
        = db.bets.map (fun x =>
            if x.gameRoundId = rid ∧ x.result = BetResult.PENDING
            then cancelBetFields x else x) ∧
      (cancelRound db rid adminId now).1.transactions
        = db.transactions ++
          ((db.bets.filter (fun b => b.gameRoundId = rid ∧
            b.result = BetResult.PENDING)).map (refundTxn round.period))) := by
  constructor
  · intro hrej
    by_cases hst : round.status = RoundStatus.CANCELLED
    · have : cancelRound db rid adminId now
          = (db, Except.error "Round already cancelled") := by
        simp [cancelRound, hfind, hst]
      rw [this]
      exact ⟨rfl, _, rfl⟩
    · have hd : round.resultStatus = ResultStatus.DECLARED := by
        rcases hrej with h | h
        · exact absurd h hst
        · exact h
      have : cancelRound db rid adminId now
          = (db, Except.error "Cannot cancel round after result is declared") := by
        simp [cancelRound, hfind, hst, hd]
      rw [this]
      exact ⟨rfl, _, rfl⟩
  · intro h1 h2
    have heq : cancelRound db rid adminId now
        = ((betsOfRound db rid).foldl
            (fun s b => refundBetUnit round.period b s)
            { db with rounds := updateRoundRecord db.rounds rid (fun r =>
                { r with status := RoundStatus.CANCELLED, endTime := some now }) },
           Except.ok ()) := by
      simp only [cancelRound, hfind]
      rw [if_neg h1, if_neg h2]
    refine ⟨by rw [heq], ?_, ?_, ?_, ?_⟩
    · rw [heq]
      rw [refundFold_rounds]
    · intro b hb hbr hbp
      rw [heq]
      rw [refundFold_wallets]
      have hsingle : (betsOfRound db rid).filter
          (fun x => x.result = BetResult.PENDING ∧ x.userId = b.userId) = [b] := by
        rw [betsOfRound, List.filter_filter]
        refine filter_eq_singleton_of_unique _ db.bets
          (List.Nodup.of_map _ hids) b hb ?_ ?_
        · simp [hbp, hbr]
        · intro x hx hpx
          simp only [Bool.and_eq_true, decide_eq_true_eq] at hpx
          exact huniq x hx b hb hpx.2 hbr hpx.1.2
      show ({ db with rounds := _ } : DB).wallets b.userId
          + ((((betsOfRound db rid).filter (fun x =>
              x.result = BetResult.PENDING ∧ x.userId = b.userId)).map
              (fun x => x.amount)).sum) = db.wallets b.userId + b.amount
      rw [hsingle]
      simp
    · rw [heq]
      rw [refundFold_bets]
      show db.bets.map _ = db.bets.map _
      refine List.map_congr_left ?_
      intro x hx
      by_cases hc : x.gameRoundId = rid ∧ x.result = BetResult.PENDING
      · rw [if_pos ?_, if_pos hc]
        exact ⟨x, List.mem_filter.2 ⟨hx, by simp [hc.1]⟩, rfl, hc.2⟩
      · rw [if_neg ?_, if_neg hc]
        rintro ⟨b', hb', hbid, hbp⟩
        have hb'mem : b' ∈ db.bets := (List.mem_filter.1 hb').1
        have hb'rid : b'.gameRoundId = rid := by
          have := (List.mem_filter.1 hb').2
          simpa using this
        have hbx : b' = x := List.inj_on_of_nodup_map hids hb'mem hx hbid
        exact hc ⟨hbx ▸ hb'rid, hbx ▸ hbp⟩
    · rw [heq]
      rw [refundFold_transactions]
      show db.transactions ++ _ = db.transactions ++ _
      congr 1
      rw [betsOfRound, List.filter_filter]
      refine congrArg _ (List.filter_congr ?_)
      intro x hx
      simp [Bool.and_comm]

/-- The OPEN round used by the C7 witness (scenario F). -/
def roundC7 : Round :=
  { id := 1, period := "20250101-0002", status := RoundStatus.OPEN,
    resultStatus := ResultStatus.PENDING, number := none, winningColor := none,
    winningSize := none, resultDeclaredBy := none, declaredAt := none,
    declaredByAdminId := none, endTime := none, totalCollection := none,
    totalPayout := none, profit := none, profitPercent := none,
    calculationData := none, selectedResultRank := none, isProfitable := false,
    lossAmount := none }

/-- The first of three pending bets (stakes 50, 75, 20) of the C7 witness. -/
def betC7a : Bet :=
  { id := 1, userId := 11, gameRoundId := 1, betType := BetType.COLOR,
    selection := "GREEN", amount := 50, potentialWin := (195/2),
    result := BetResult.PENDING, winAmount := none }

/-- State used by the C7 witness: one open round with three pending bets. -/
def dbC7 : DB :=
  { rounds := [roundC7],
    bets := [betC7a,
      { id := 2, userId := 12, gameRoundId := 1, betType := BetType.COLOR,
        selection := "RED", amount := 75, potentialWin := (585/4),
        result := BetResult.PENDING, winAmount := none },
      { id := 3, userId := 13, gameRoundId := 1, betType := BetType.SIZE,
        selection := "BIG", amount := 20, potentialWin := 39,
        result := BetResult.PENDING, winAmount := none }],
    wallets := fun _ => 0, transactions := [] }

set_option maxRecDepth 4000 in
/-- Witness for C7: cancelling the concrete round refunds the first bet's
stake of 50 into its owner's wallet. -/
theorem c7_cancel_round_witness :
    (cancelRound dbC7 1 9 100).1.wallets betC7a.userId
      = dbC7.wallets betC7a.userId + betC7a.amount :=
  (((c7_cancel_round dbC7 1 9 100 roundC7 (by with_unfolding_all decide)
      (by decide) (by with_unfolding_all decide)).2
    (by decide) (by decide)).2.2.1) betC7a (by with_unfolding_all decide)
    (by decide) (by decide)

/-! ## Admin declarations that breach the loss bound are rejected (C6) -/

/-- C6: an admin-forced declaration whose target candidate is not
isAcceptable (its loss exceeds the configured max-loss bound) is rejected
with a validation error before any write: the state — in particular the
round's status and resultStatus — is unchanged and no bet is settled. -/
theorem c6_unacceptable_admin_result_rejected (minProfitPercent maxLossPerRound : ℚ)
    (db : DB) (rid adminId now : ℕ) (winningOption : String) (round : Round)
    (cal : Calculation) (targetNumber : ℕ) (c : Candidate)
    (hfind : db.rounds.find? (fun r => r.id = rid) = some round)
    (h1 : round.resultStatus ≠ ResultStatus.DECLARED)
    (h2 : round.status ≠ RoundStatus.CANCELLED)
    (hcal : calculateAllResultsLiability minProfitPercent maxLossPerRound
      (betsOfRound db rid) = some cal)
    (hres : resolveWinningOption winningOption = some targetNumber)
    (hc : cal.results.find? (fun r => r.number = targetNumber) = some c)
    (hacc : c.isAcceptable = false) :
    (declareResult minProfitPercent maxLossPerRound db rid winningOption
      adminId now).1 = db ∧
    ∃ msg, (declareResult minProfitPercent maxLossPerRound db rid winningOption
      adminId now).2 = Except.error msg := by
  have hval : validateAdminResult minProfitPercent maxLossPerRound
      (betsOfRound db rid) winningOption
      = { valid := false, warning := none,
          error := some "Result causes loss which exceeds max allowed loss",
          result := some c } := by
    simp [validateAdminResult, hcal, hres, hc, hacc]
  have hrun : declareResult minProfitPercent maxLossPerRound db rid winningOption
      adminId now
      = (db, Except.error "Result causes loss which exceeds max allowed loss") := by
    simp [declareResult, hfind, h1, h2, hval]
  rw [hrun]
  exact ⟨rfl, _, rfl⟩

/-- The OPEN round used by the C6 witness (scenario E shape). -/
def roundC6 : Round :=
  { id := 1, period := "20250101-0003", status := RoundStatus.OPEN,
    resultStatus := ResultStatus.PENDING, number := none, winningColor := none,
    winningSize := none, resultDeclaredBy := none, declaredAt := none,
    declaredByAdminId := none, endTime := none, totalCollection := none,
    totalPayout := none, profit := none, profitPercent := none,
    calculationData := none, selectedResultRank := none, isProfitable := false,
    lossAmount := none }

/-- The NUMBER 7 bet of 100 used by the C6 witness. -/
def betC6 : Bet :=
  { id := 1, userId := 21, gameRoundId := 1, betType := BetType.NUMBER,
    selection := "7", amount := 100, potentialWin := 850,
    result := BetResult.PENDING, winAmount := none }

/-- State used by the C6 witness: with one NUMBER 7 bet of 100, forcing
digit 7 would lose 750 while the max-loss bound is 0. -/
def dbC6 : DB :=
  { rounds := [roundC6], bets := [betC6],
    wallets := fun _ => 0, transactions := [] }

set_option maxRecDepth 4000 in
/-- Witness for C6: forcing digit 7 on the concrete round leaves the state
untouched. -/
theorem c6_unacceptable_admin_result_rejected_witness :
    (declareResult 5 0 dbC6 1 "7" 99 0).1 = dbC6 :=
  (c6_unacceptable_admin_result_rejected 5 0 dbC6 1 99 0 "7" roundC6
    ((calculateAllResultsLiability 5 0 (betsOfRound dbC6 1)).getD emptyCalculation)
    7
    (((((calculateAllResultsLiability 5 0 (betsOfRound dbC6 1)).getD
      emptyCalculation).results.find? (fun r => r.number = 7)).getD
      missingCandidate))
    (by with_unfolding_all decide) (by decide) (by decide)
    (by with_unfolding_all decide) (by with_unfolding_all decide)
    (by with_unfolding_all decide) (by with_unfolding_all decide)).1
